import Mathlib

/-!
Verification of the memory-capture file-carving core
(`src/carver.py`, `src/parsers.py`, `src/file_signatures.py`, `src/utils.py`)
against its natural-language specification.

Byte buffers are shallowly embedded as `List Nat` (one `Nat` per byte).
Python slices clamp at the end of the buffer, so `pySlice` is total; a
Python *index* access `b[i]` can raise `IndexError` and is modelled with
`List.get?`.  Functions whose Python bodies can raise an exception that is
not caught locally are modelled in the `Except Unit` monad; a `try/except`
block becomes a `match` on the inner result.
-/

/-- A byte buffer: Python `bytes`, one `Nat` (0..255) per byte. -/
abbrev Buf := List Nat

/-- Python slice `data[start : start+len]`: clamps, never fails. -/
def pySlice (data : Buf) (start len : Nat) : Buf :=
  (data.drop start).take len

/-- Helper for `bytesFind`: first index i of `l` such that `pat` is a
prefix of `l.drop i` (Python `bytes.find` forward literal search). -/
def findSub (l pat : Buf) : Option Nat :=
  if pat.isPrefixOf l then some 0
  else
    match l with
    | [] => none
    | _ :: t => (findSub t pat).map (· + 1)

/-- Python `data.find(pat, start)`: first occurrence at or after `start`,
`none` for -1.  (`utils.find_pattern` and the inline `.find` calls.) -/
def bytesFind (data pat : Buf) (start : Nat) : Option Nat :=
  if start > data.length then none
  else (findSub (data.drop start) pat).map (· + start)

/-- Python `data.rfind(b, 0, hi)` for a single byte `b`: index of the last
occurrence strictly before `hi`, `none` for -1. -/
def rfindByte (data : Buf) (b : Nat) (hi : Nat) : Option Nat :=
  let pre := data.take hi
  match pre.reverse.findIdx? (· == b) with
  | some i => some (pre.length - 1 - i)
  | none => none

/-- `utils.read_uint32_le`: `struct.unpack_from("<I", data, offset)`.
`none` models the `struct.error` raised when fewer than 4 bytes remain. -/
def read_uint32_le (data : Buf) (offset : Nat) : Option Nat :=
  match data.get? offset, data.get? (offset+1), data.get? (offset+2), data.get? (offset+3) with
  | some a, some b, some c, some d => some (a + 256 * b + 65536 * c + 16777216 * d)
  | _, _, _, _ => none

/-- `utils.read_uint32_be`: `struct.unpack_from(">I", data, offset)`. -/
def read_uint32_be (data : Buf) (offset : Nat) : Option Nat :=
  match data.get? offset, data.get? (offset+1), data.get? (offset+2), data.get? (offset+3) with
  | some a, some b, some c, some d => some (16777216 * a + 65536 * b + 256 * c + d)
  | _, _, _, _ => none

/-- Little-endian encoding of a 32-bit value (low byte first). -/
def u32le (v : Nat) : Buf :=
  [v % 256, v / 256 % 256, v / 65536 % 256, v / 16777216 % 256]

/-- Big-endian encoding of a 32-bit value (high byte first). -/
def u32be (v : Nat) : Buf :=
  [v / 16777216 % 256, v / 65536 % 256, v / 256 % 256, v % 256]

/-- ASCII bytes of decimal digits of `n` (no padding). -/
def decChars (fuel n : Nat) : List Char :=
  match fuel with
  | 0 => []
  | f + 1 =>
    if n < 10 then [Char.ofNat (48 + n)]
    else decChars f (n / 10) ++ [Char.ofNat (48 + n % 10)]

/-- One uppercase hexadecimal digit, as in Python `"%X"`. -/
def hexChar (n : Nat) : Char :=
  if n < 10 then Char.ofNat (48 + n) else Char.ofNat (55 + n)

/-- Uppercase hexadecimal digits of `n` (no padding). -/
def hexChars (fuel n : Nat) : List Char :=
  match fuel with
  | 0 => []
  | f + 1 =>
    if n < 16 then [hexChar n]
    else hexChars f (n / 16) ++ [hexChar (n % 16)]

/-- Python `f"{n:04d}"`: zero-padded decimal, at least 4 wide. -/
def pad4 (n : Nat) : String :=
  let ds := decChars (n + 1) n
  String.mk (List.replicate (4 - ds.length) '0' ++ ds)

/-- Python `f"{n:08X}"`: zero-padded uppercase hex, at least 8 wide. -/
def hex8 (n : Nat) : String :=
  let ds := hexChars (n + 1) n
  String.mk (List.replicate (8 - ds.length) '0' ++ ds)

/-- Turn ASCII bytes into a Lean string (used after the parsers have
restricted the bytes to printable ASCII). -/
def bytesToString (b : Buf) : String :=
  String.mk (b.map Char.ofNat)

/-- Python `os.path.splitext`: split at the last dot. -/
def splitext (s : String) : String × String :=
  let cs := s.toList
  match cs.reverse.findIdx? (· == '.') with
  | none => (s, "")
  | some i =>
    let k := cs.length - 1 - i
    (String.mk (cs.take k), String.mk (cs.drop k))

section Signatures

/-- One entry of `file_signatures.FILE_SIGNATURES` (the unused
`description` string is omitted; `folder` is kept although the carver
never reads it when building output paths). -/
structure SigInfo where
  magic : Buf
  extension : String
  min_size : Nat
  max_size : Nat
  folder : Option String
deriving DecidableEq, Repr

/-- `file_signatures.FILE_SIGNATURES`, in Python dict (insertion) order. -/
def FILE_SIGNATURES : List (String × SigInfo) :=
  [ ("dds", ⟨[68,68,83,32], ".dds", 128, 52428800, some "textures"⟩),
    ("ddx_3xdo", ⟨[51,88,68,79], ".ddx", 68, 52428800, some "ddx"⟩),
    ("ddx_3xdr", ⟨[51,88,68,82], ".ddx", 68, 52428800, some "ddx"⟩),
    ("nif", ⟨[71,97,109,101,98,114,121,111,32,70,105,108,101,32,70,111,114,109,97,116], ".nif", 100, 20971520, none⟩),
    ("kf", ⟨[71,97,109,101,98,114,121,111,32,70,105,108,101,32,70,111,114,109,97,116], ".kf", 100, 10485760, none⟩),
    ("egm", ⟨[71,97,109,101,98,114,121,111,32,70,105,108,101,32,70,111,114,109,97,116], ".egm", 100, 5242880, none⟩),
    ("egt", ⟨[71,97,109,101,98,114,121,111,32,70,105,108,101,32,70,111,114,109,97,116], ".egt", 100, 1048576, none⟩),
    ("xma", ⟨[82,73,70,70], ".xma", 44, 104857600, some "audio"⟩),
    ("ogg", ⟨[79,103,103,83], ".ogg", 58, 52428800, some "audio"⟩),
    ("lip", ⟨[76,73,80,83], ".lip", 20, 5242880, none⟩),
    ("script_scn", ⟨[115,99,110,32], ".txt", 20, 102400, some "scripts"⟩),
    ("script_sn", ⟨[83,99,114,105,112,116,78,97,109,101,32], ".txt", 20, 102400, some "scripts"⟩),
    ("esp", ⟨[84,69,83,52], ".esp", 24, 524288000, none⟩),
    ("esm", ⟨[84,69,83,52], ".esm", 24, 524288000, none⟩),
    ("bsa", ⟨[66,83,65,0], ".bsa", 36, 2147483648, none⟩),
    ("sdt", ⟨[83,68,65,84], ".sdt", 20, 10485760, none⟩),
    ("bik", ⟨[66,73,75,105], ".bik", 20, 524288000, none⟩),
    ("tex", ⟨[84,69,88,73], ".tex", 20, 1048576, none⟩),
    ("png", ⟨[137,80,78,71,13,10,26,10], ".png", 67, 52428800, none⟩),
    ("xex", ⟨[88,69,88,50], ".xex", 24, 104857600, none⟩),
    ("xdbf", ⟨[88,68,66,70], ".xdbf", 24, 10485760, none⟩),
    ("xuis", ⟨[88,85,73,83], ".xuis", 16, 10485760, none⟩),
    ("xuib", ⟨[88,85,73,66], ".xuib", 16, 10485760, none⟩),
    ("zlib_default", ⟨[120,156], ".zlib", 10, 10485760, none⟩),
    ("zlib_best", ⟨[120,218], ".zlib", 10, 10485760, none⟩) ]

end Signatures

namespace DDSParser

/-- Result dictionary of `DDSParser.parse_header`.  `fourcc` keeps the
bytes of the decoded-and-null-stripped FourCC string. -/
structure DDSInfo where
  width : Nat
  height : Nat
  mipmap_count : Nat
  fourcc : Buf
  endianness : String
  estimated_size : Nat
  pitch : Nat
  is_xbox360 : Bool
deriving DecidableEq, Repr

/-- `DDSParser._get_bytes_per_block` on the FourCC bytes. -/
def get_bytes_per_block (fourcc : Buf) : Nat :=
  if fourcc = [68,88,84,49] then 8
  else if fourcc = [68,88,84,50] ∨ fourcc = [68,88,84,51] ∨ fourcc = [68,88,84,52] ∨ fourcc = [68,88,84,53] then 16
  else if fourcc = [65,84,73,49] ∨ fourcc = [66,67,52,85] ∨ fourcc = [66,67,52,83] then 8
  else if fourcc = [65,84,73,50] ∨ fourcc = [66,67,53,85] ∨ fourcc = [66,67,53,83] then 16
  else 16

/-- FourCC codes the source treats as block-compressed
(DXT1..DXT5, ATI1, BC4U, BC4S, ATI2, BC5U, BC5S). -/
def compressedFourCCs : List Buf :=
  [[68,88,84,49],[68,88,84,50],[68,88,84,51],[68,88,84,52],[68,88,84,53],
   [65,84,73,49],[66,67,52,85],[66,67,52,83],
   [65,84,73,50],[66,67,53,85],[66,67,53,83]]

/-- `DDSParser._calculate_mipmap_size`. -/
def calculate_mipmap_size (width height mipmap_count bytes_per_block : Nat) : Nat :=
  let blocks_wide := (width + 3) / 4
  let blocks_high := (height + 3) / 4
  let base := blocks_wide * blocks_high * bytes_per_block
  if mipmap_count > 1 then
    let r := (List.range (min mipmap_count 16 - 1)).foldl
      (fun (acc : Nat × Nat × Nat) _ =>
        let mw := max 1 (acc.2.1 / 2)
        let mh := max 1 (acc.2.2 / 2)
        let bw := max 1 ((mw + 3) / 4)
        let bh := max 1 ((mh + 3) / 4)
        (acc.1 + bw * bh * bytes_per_block, mw, mh))
      (base, width, height)
    r.1
  else base

/-- `DDSParser._handle_uncompressed`. -/
def handle_uncompressed (height pitch mipmap_count bytes_per_block : Nat) : Nat :=
  let base := pitch * height
  if mipmap_count > 1 then
    let r := (List.range (min mipmap_count 16 - 1)).foldl
      (fun (acc : Nat × Nat) _ =>
        let ms := acc.2 / 4
        (acc.1 + max ms bytes_per_block, ms))
      (base, base)
    r.1
  else base

/-- Python `bytes.decode("ascii", errors="ignore")` followed by
`.strip("\x00")`: drop non-ASCII bytes, then strip leading and trailing
NUL bytes. -/
def decodeStripNul (b : Buf) : Buf :=
  let ascii := b.filter (· < 128)
  ((ascii.dropWhile (· == 0)).reverse.dropWhile (· == 0)).reverse

/-- `DDSParser.parse_header`.  A `struct.error` on the field reads would be
caught by the source's `except` and turned into `None`; the wildcard match
arms reproduce that. -/
def parse_header (data : Buf) (offset : Nat) : Option DDSInfo :=
  if data.length < offset + 128 then none
  else
    let hd := pySlice data offset 128
    if pySlice hd 0 4 ≠ [68,68,83,32] then none
    else
      match read_uint32_le hd 4, read_uint32_le hd 12, read_uint32_le hd 16,
            read_uint32_le hd 20, read_uint32_le hd 28 with
      | some header_size, some h0, some w0, some p0, some m0 =>
        let fourcc := pySlice hd 84 4
        if h0 > 16384 ∨ w0 > 16384 ∨ header_size ≠ 124 then
          match read_uint32_be hd 12, read_uint32_be hd 16,
                read_uint32_be hd 20, read_uint32_be hd 28 with
          | some h1, some w1, some p1, some m1 =>
            parse_tail w1 h1 p1 m1 fourcc "big"
          | _, _, _, _ => none
        else parse_tail w0 h0 p0 m0 fourcc "little"
      | _, _, _, _, _ => none
where
  /-- Shared tail of `parse_header` after the endianness choice. -/
  parse_tail (width height pitch mipmap_count : Nat) (fourcc : Buf)
      (endianness : String) : Option DDSInfo :=
    if height = 0 ∨ width = 0 ∨ height > 16384 ∨ width > 16384 then none
    else
      let fourcc_str := decodeStripNul fourcc
      let bytes_per_block := get_bytes_per_block fourcc_str
      if fourcc_str ∉ compressedFourCCs ∧ pitch > 0 then
        some ⟨width, height, mipmap_count, fourcc_str, endianness,
              handle_uncompressed height pitch mipmap_count bytes_per_block + 128,
              pitch, endianness == "big"⟩
      else
        some ⟨width, height, mipmap_count, fourcc_str, endianness,
              calculate_mipmap_size width height mipmap_count bytes_per_block + 128,
              pitch, endianness == "big"⟩

/-- A 128-byte DDS header with all 32-bit fields encoded little-endian:
magic, size=124, flags=0, height, width, pitch, depth=0, mipmap count,
52 reserved bytes, FourCC bytes `a b c d`, 40 trailing bytes. -/
def mkHeaderLE (w h pitch mip a b c d : Nat) : Buf :=
  [68,68,83,32] ++ u32le 124 ++ u32le 0 ++ u32le h ++ u32le w ++ u32le pitch ++
  u32le 0 ++ u32le mip ++ List.replicate 52 0 ++ [a,b,c,d] ++ List.replicate 40 0

/-- The same logical header with every 32-bit field encoded big-endian. -/
def mkHeaderBE (w h pitch mip a b c d : Nat) : Buf :=
  [68,68,83,32] ++ u32be 124 ++ u32be 0 ++ u32be h ++ u32be w ++ u32be pitch ++
  u32be 0 ++ u32be mip ++ List.replicate 52 0 ++ [a,b,c,d] ++ List.replicate 40 0

end DDSParser

namespace ScriptParser

/-- Result dictionary of `ScriptParser.parse_script` (the constant
`"type": "script"` entry is omitted). -/
structure ScriptInfo where
  name : String
  size : Nat
  is_complete : Bool
deriving DecidableEq, Repr

/-- `ScriptParser.SCRIPT_HEADERS`, in source order:
`"scn "`, `"Scn "`, `"SCN "`, `"ScriptName "`, `"scriptname "`,
`"SCRIPTNAME "`. -/
def SCRIPT_HEADERS : List Buf :=
  [[115,99,110,32], [83,99,110,32], [83,67,78,32],
   [83,99,114,105,112,116,78,97,109,101,32],
   [115,99,114,105,112,116,110,97,109,101,32],
   [83,67,82,73,80,84,78,65,77,69,32]]

/-- Bytes Python `str.strip()` removes (ASCII whitespace). -/
def isStripWS (b : Nat) : Bool :=
  b == 9 || b == 10 || b == 11 || b == 12 || b == 13 || b == 32

/-- Python `str.strip()` on ASCII bytes. -/
def stripWS (l : Buf) : Buf :=
  ((l.dropWhile isStripWS).reverse.dropWhile isStripWS).reverse

/-- ASCII lowercasing of one byte (Python `str.lower()`). -/
def toLowerB (b : Nat) : Nat :=
  if 65 ≤ b ∧ b ≤ 90 then b + 32 else b

/-- Python `str.isalnum()` for ASCII bytes. -/
def isAlnumB (b : Nat) : Bool :=
  (48 ≤ b && b ≤ 57) || (65 ≤ b && b ≤ 90) || (97 ≤ b && b ≤ 122)

/-- One step of the source's comment/whitespace cut:
`script_name.split(char)[0]` when `char in script_name`. -/
def cutAt (c : Nat) (l : Buf) : Buf :=
  if l.contains c then l.takeWhile (· ≠ c) else l

/-- `ScriptParser._extract_script_name` on the (already decoded and
stripped) bytes of the first line. -/
def extract_script_name (first_line : Buf) : Option Buf :=
  let lower_line := first_line.map toLowerB
  let name0 : Option Buf :=
    if [115,99,110,32].isPrefixOf lower_line then some (stripWS (first_line.drop 4))
    else if [115,99,114,105,112,116,110,97,109,101,32].isPrefixOf lower_line then
      some (stripWS (first_line.drop 11))
    else none
  match name0 with
  | none => none
  | some n0 =>
    let n1 := cutAt 32 (cutAt 9 (cutAt 13 (cutAt 59 n0)))
    if n1 = [] ∨ ¬ (n1.all fun c => isAlnumB c || c == 95) then none
    else some n1

/-- A byte ends the script in heuristic 2 of `_find_script_end`
(NUL, non-printable below 0x20 other than tab/LF/CR, or above 0x7E). -/
def isGarbage (b : Nat) : Bool :=
  b == 0 || (b < 32 && !(b == 9 || b == 10 || b == 13)) || b > 126

/-- The backward whitespace trim loop of `_find_script_end`; the
`List.get?` miss models the `IndexError` Python would raise on an
out-of-range index (never reached, see `trimEnd_ok`). -/
def trimEnd (s : Buf) : Nat → Except Unit Nat
  | 0 => .ok 0
  | e + 1 =>
    match s.get? e with
    | none => .error ()
    | some b =>
      if b == 9 || b == 10 || b == 13 || b == 32 then trimEnd s e
      else .ok (e + 1)

/-- `ScriptParser._find_script_end`. -/
def find_script_endE (script_data : Buf) (first_line_end : Nat) : Except Unit Nat :=
  let search_start := first_line_end + 1
  let e1 := SCRIPT_HEADERS.foldl
    (fun e hdr =>
      match bytesFind script_data hdr search_start with
      | some next_script =>
        match rfindByte script_data 10 next_script with
        | some boundary => min e boundary
        | none => min e next_script
      | none => e)
    script_data.length
  let e2 :=
    match (script_data.take e1).findIdx? isGarbage with
    | some i => min e1 i
    | none => e1
  trimEnd script_data e2

/-- Tail of `ScriptParser.parse_script` after name validation: locate
the end, enforce the minimum length, and test the completeness
heuristic (`"\nend" in script_text or script_text.rstrip().endswith("end")`
on the ASCII-decoded, lowercased prefix). -/
def parse_script_finish (script_data : Buf) (first_line_end : Nat) (safe_name : String) :
    Except Unit (Option ScriptInfo) :=
  match find_script_endE script_data first_line_end with
  | .error e => .error e
  | .ok end_pos =>
    if end_pos < 10 then .ok none
    else
      let script_text := ((script_data.take end_pos).filter (· < 128)).map toLowerB
      let is_complete :=
        (bytesFind script_text [10,101,110,100] 0).isSome ||
        [101,110,100].isSuffixOf ((script_text.reverse.dropWhile isStripWS).reverse)
      .ok (some ⟨safe_name, end_pos, is_complete⟩)

/-- `ScriptParser.parse_script`, in the `Except` monad: the only
uncaught-exception source is the indexing in the trim loop of
`_find_script_end` (the source catches only `UnicodeDecodeError`). -/
def parse_scriptE (data : Buf) (offset max_size : Nat) : Except Unit (Option ScriptInfo) :=
  if data.length < offset + 10 then .ok none
  else
    let max_end := min (offset + max_size) data.length
    let script_data := pySlice data offset (max_end - offset)
    match bytesFind script_data [10] 0 with
    | none => .ok none
    | some first_line_end =>
      let first_line := stripWS ((script_data.take first_line_end).filter (· < 128))
      match extract_script_name first_line with
      | none => .ok none
      | some script_name =>
        let remaining := script_data.drop (first_line_end + 1)
        if remaining.length < 5 ∨ bytesFind remaining [10] 0 = none then .ok none
        else
          let safe0 := script_name.filter fun c => isAlnumB c || c == 95 || c == 45
          let safe_name := if safe0 = [] then "unknown" else bytesToString safe0
          parse_script_finish script_data first_line_end safe_name

/-- `parse_script` as the carver sees it (exceptions would propagate past
the carver's per-candidate handler; they never occur, see the claim on
oracle totality). -/
def parse_script (data : Buf) (offset max_size : Nat) : Option ScriptInfo :=
  match parse_scriptE data offset max_size with
  | .ok r => r
  | .error _ => none

end ScriptParser

namespace XMAParser

/-- Result dictionary of `XMAParser.parse_header`. -/
structure XMAInfo where
  format : String
  file_size : Nat
  is_xma : Bool
deriving DecidableEq, Repr

/-- `XMAParser._is_xma_chunk`.  The read at `search_offset + 8` is only
guarded by `len(data) >= search_offset + 10`, so with 10 or 11 bytes left
it raises `struct.error` (modelled as `.error`), which the caller's
`except` catches. -/
def is_xma_chunkE (data : Buf) (search_offset : Nat) : Except Unit Bool :=
  let chunk_id := pySlice data search_offset 4
  if chunk_id = [88,77,65,50] then .ok true
  else if chunk_id = [102,109,116,32] ∧ data.length ≥ search_offset + 10 then
    match read_uint32_le data (search_offset + 8) with
    | none => .error ()
    | some v =>
      .ok (v % 65536 == 357 || v % 65536 == 358)
  else .ok false

/-- The chunk-walk loop of `XMAParser.parse_header`.  Each iteration
advances `search_offset` by at least 8 within a window of fewer than 200
bytes, so the loop runs at most 25 times; fuel 32 therefore reproduces the
Python loop exactly. -/
def xmaLoopE (data : Buf) (offset file_size : Nat) : Nat → Nat → Except Unit (Option XMAInfo)
  | 0, _ => .ok none
  | fuel + 1, search_offset =>
    if search_offset < min (offset + 200) (data.length - 8) then
      if data.length < search_offset + 8 then .ok none
      else
        match is_xma_chunkE data search_offset with
        | .error e => .error e
        | .ok true => .ok (some ⟨"XMA", file_size, true⟩)
        | .ok false =>
          match read_uint32_le data (search_offset + 4) with
          | none => .error ()
          | some chunk_size =>
            xmaLoopE data offset file_size fuel
              (search_offset + 8 + ((chunk_size + 1) - (chunk_size + 1) % 2))
    else .ok none

/-- Python `try ... except (struct.error, IndexError): return None`
around a parser body. -/
def catchToNone (e : Except Unit (Option XMAInfo)) : Except Unit (Option XMAInfo) :=
  match e with
  | .ok r => .ok r
  | .error _ => .ok none

/-- `XMAParser.parse_header`.  The whole body sits inside
`try ... except (struct.error, IndexError): return None`
(`catchToNone`). -/
def parse_headerE (data : Buf) (offset : Nat) : Except Unit (Option XMAInfo) :=
  if data.length < offset + 12 then .ok none
  else
    catchToNone
      (if pySlice data offset 4 ≠ [82,73,70,70] then .ok none
       else
         match read_uint32_le data (offset + 4) with
         | none => .error ()
         | some v =>
           if pySlice data (offset + 8) 4 ≠ [87,65,86,69] then .ok none
           else xmaLoopE data offset (v + 8) 32 (offset + 12))

end XMAParser

namespace ZlibStreamParser

/-- Abstract interface to the Python runtime pieces the stream oracle
uses: `zlib.decompress` / `zlib.decompressobj` (errors are `zlib.error`)
and UTF-8 decoding in strict / ignore-errors mode.  The claims hold for
every interface value, in particular for the real zlib and codec. -/
structure PyPrims where
  decompress : Buf → Except Unit Buf
  unusedAfter : Buf → Except Unit Buf
  utf8Strict : Buf → Option String
  utf8Ignore : Buf → String

/-- Result dictionary of `ZlibStreamParser.try_decompress`.  The
`compression_ratio` float is modelled as the exact rational. -/
structure ZlibResult where
  content_type : String
  extension : String
  compressed_size : Nat
  decompressed_size : Nat
  decompressed_data : Buf
  name_hint : Option String
  compression_ratio : ℚ
deriving DecidableEq, Repr

/-- `ZlibStreamParser._SIGNATURE_MAP`, in dict (insertion) order. -/
def SIGNATURE_MAP : List (Buf × String × String) :=
  [ ([68,68,83,32], "dds", ".dds"),
    ([51,88,68,79], "ddx", ".ddx"),
    ([51,88,68,82], "ddx", ".ddx"),
    ([84,69,83,52], "esp", ".esp"),
    ([66,83,65,0], "bsa", ".bsa"),
    ([79,103,103,83], "ogg", ".ogg"),
    ([137,80,78,71], "png", ".png"),
    ([66,73,75,105], "bik", ".bik"),
    ([76,73,80,83], "lip", ".lip"),
    ([88,69,88,50], "xex", ".xex"),
    ([88,68,66,70], "xdbf", ".xdbf"),
    ([88,85,73,83], "xui", ".xui"),
    ([88,85,73,66], "xui", ".xui") ]

/-- `ZlibStreamParser._check_signature_match`. -/
def check_signature_match (decompressed : Buf) : Option (String × String) :=
  (SIGNATURE_MAP.find? fun e => e.1.isPrefixOf decompressed).map (·.2)

/-- `ZlibStreamParser._check_riff_type`. -/
def check_riff_type (decompressed : Buf) : String × String :=
  if (bytesFind (decompressed.take 100) [88,77,65,50] 0).isSome ∨
     (bytesFind (decompressed.take 100) [102,109,116,32] 0).isSome then
    ("xma", ".xma")
  else ("riff", ".riff")

/-- `ZlibStreamParser._check_xml_content` (its `UnicodeDecodeError`
handler is the `none` branch of the strict decode). -/
def check_xml_content (pz : PyPrims) (decompressed : Buf) : Option (String × String) :=
  match pz.utf8Strict (decompressed.take 500) with
  | none => none
  | some text_sample =>
    if text_sample.contains '<' ∧ text_sample.contains '>' then some ("xml", ".xml")
    else none

/-- `ZlibStreamParser._check_text_content`; the 0.85 printable-ratio
float test is modelled exactly as `100 * printable > 85 * length`. -/
def check_text_content (decompressed : Buf) : Option (String × String) :=
  if decompressed.length ≤ 20 then none
  else
    let text_sample := decompressed.take (min 500 decompressed.length)
    let printable_count :=
      (text_sample.filter fun b => (32 ≤ b && b < 127) || b == 9 || b == 10 || b == 13).length
    if 100 * printable_count > 85 * text_sample.length then some ("text", ".txt")
    else none

/-- `ZlibStreamParser._extract_nif_author`. -/
def extract_nif_author (pz : PyPrims) (decompressed : Buf) : Option String :=
  let text := pz.utf8Ignore (decompressed.take 500)
  let pieces := text.splitOn "Do Nothing"
  if pieces.length > 1 then
    let parts := (pieces.headD "").trim.split Char.isWhitespace |>.filter (· ≠ "")
    match parts.getLast? with
    | some last => some last
    | none => none
  else none

/-- `ZlibStreamParser._determine_content_type`. -/
def determine_content_type (pz : PyPrims) (decompressed : Buf) : String × String × Option String :=
  if [71,97,109,101,98,114,121,111,32,70,105,108,101,32,70,111,114,109,97,116].isPrefixOf decompressed then
    ("nif", ".nif", extract_nif_author pz decompressed)
  else if [68,65,84,65].isPrefixOf decompressed then
    if (bytesFind (decompressed.take 20) [86,78,77,76] 0).isSome then ("vnml", ".vnml", none)
    else ("data_chunk", ".data", none)
  else
    match check_signature_match decompressed with
    | some (ct, ext) => (ct, ext, none)
    | none =>
      if [82,73,70,70].isPrefixOf decompressed then
        let r := check_riff_type decompressed
        (r.1, r.2, none)
      else if decompressed.take 3 = [115,99,110] ∨ decompressed.take 3 = [83,99,110] ∨
              decompressed.take 3 = [83,67,78] ∨
              [83,99,114,105,112,116,78,97,109,101].isPrefixOf decompressed then
        ("script", ".txt", none)
      else if [60,63,120,109,108].isPrefixOf decompressed ∨ [60].isPrefixOf decompressed then
        match check_xml_content pz decompressed with
        | some (ct, ext) => (ct, ext, none)
        | none =>
          match check_text_content decompressed with
          | some (ct, ext) => (ct, ext, none)
          | none => ("binary", ".bin", none)
      else
        match check_text_content decompressed with
        | some (ct, ext) => (ct, ext, none)
        | none => ("binary", ".bin", none)

/-- Exact rational division; `.error` models Python's
`ZeroDivisionError` (always guarded in the source). -/
def ratDiv (a b : Nat) : Except Unit ℚ :=
  if b = 0 then .error () else .ok ((a : ℚ) / (b : ℚ))

/-- The trial-size loop of `ZlibStreamParser.try_decompress`: body of
`for try_size in [...]`, one list element per trial; `zlib.error` from
either decompression is the `continue` branch. -/
def tryLoopE (pz : PyPrims) (data : Buf) (offset : Nat) :
    List Nat → Except Unit (Option ZlibResult)
  | [] => .ok none
  | try_size :: rest =>
    let chunk_end := min (offset + try_size) data.length
    let chunk := pySlice data offset (chunk_end - offset)
    match pz.decompress chunk with
    | .error _ => tryLoopE pz data offset rest
    | .ok decompressed =>
      if decompressed.length < 20 then tryLoopE pz data offset rest
      else
        let cen := determine_content_type pz decompressed
        match pz.unusedAfter chunk with
        | .error _ => tryLoopE pz data offset rest
        | .ok unused_data =>
          let actual_compressed_size := chunk.length - unused_data.length
          match (if actual_compressed_size > 0 then
                   ratDiv decompressed.length actual_compressed_size
                 else .ok 0) with
          | .error e => .error e
          | .ok ratio =>
            .ok (some ⟨cen.1, cen.2.1, actual_compressed_size, decompressed.length,
                       decompressed, cen.2.2, ratio⟩)

/-- `ZlibStreamParser.try_decompress` in the `Except` monad. -/
def try_decompressE (pz : PyPrims) (data : Buf) (offset max_compressed_size : Nat) :
    Except Unit (Option ZlibResult) :=
  if data.length < offset + 10 then .ok none
  else if ¬ (pySlice data offset 2 = [120,1] ∨ pySlice data offset 2 = [120,156] ∨
             pySlice data offset 2 = [120,218]) then .ok none
  else tryLoopE pz data offset [1024, 4096, 16384, 65536, 262144, max_compressed_size]

/-- `try_decompress` as the carver sees it. -/
def try_decompress (pz : PyPrims) (data : Buf) (offset max_compressed_size : Nat) :
    Option ZlibResult :=
  match try_decompressE pz data offset max_compressed_size with
  | .ok r => r
  | .error _ => none

end ZlibStreamParser

namespace MemoryCarver

open ZlibStreamParser

/-- `carver.CarveEntry`. -/
structure CarveEntry where
  file_type : String
  offset : Nat
  size_in_dump : Nat
  size_output : Nat
  filename : String
  is_compressed : Bool
  content_type : String
deriving DecidableEq, Repr

/-- The mutable pieces of a `MemoryCarver` plus the output directory
tree it writes into: per-type counters (`self.stats`, all keys start
at 0, so an absent key reads as 0), the manifest, and the file system
as a map from output-relative path to content. -/
structure CarverState where
  stats : List (String × Nat)
  manifest : List CarveEntry
  fs : List (String × Buf)
deriving DecidableEq, Repr

/-- A fresh `MemoryCarver` over an empty output directory. -/
def initState : CarverState := ⟨[], [], []⟩

/-- Read a per-type counter (`self.stats[t]`; every registry key is
initialised to 0 in `__init__`). -/
def statsGet (stats : List (String × Nat)) (t : String) : Nat :=
  ((stats.find? fun kv => kv.1 == t).map (·.2)).getD 0

/-- Write a per-type counter. -/
def statsSet (stats : List (String × Nat)) (t : String) (v : Nat) : List (String × Nat) :=
  if stats.any fun kv => kv.1 == t then
    stats.map fun kv => if kv.1 == t then (t, v) else kv
  else stats ++ [(t, v)]

/-- `os.path.exists` + read on the modelled output tree. -/
def fsGet (fs : List (String × Buf)) (path : String) : Option Buf :=
  (fs.find? fun kv => kv.1 == path).map (·.2)

/-- Write (or overwrite) a file in the modelled output tree. -/
def fsSet (fs : List (String × Buf)) (path : String) (content : Buf) : List (String × Buf) :=
  if fs.any fun kv => kv.1 == path then
    fs.map fun kv => if kv.1 == path then (path, content) else kv
  else fs ++ [(path, content)]

/-- Static configuration of a scan: the registry, the constructor
arguments, the runtime primitives for the stream oracle, and the size
oracles of the format families none of the claims depend on
(`ddx/nif/kf/egm/egt/lip/png/xma/bik/esp/esm/bsa/xex/xdbf/xuis/xuib` and
the default branch of `_determine_file_size`, all of which return an
optional plain size).  Quantifying over `otherSize` covers every
behaviour those parsers can have. -/
structure Config where
  sigs : List (String × SigInfo)
  chunk_size : Nat
  max_files_per_type : Nat
  prims : PyPrims
  otherSize : String → Buf → Option Nat

/-- Tagged result of `_determine_file_size` (int, 2-tuple, 4-tuple or
zlib dict). -/
inductive SizeResult where
  | plain (size : Nat)
  | withFlags (size : Nat) (is_xbox360 : Bool)
  | script (size : Nat) (is_xbox360 : Bool) (name : String) (is_complete : Bool)
  | zlibDict (info : ZlibResult)
deriving DecidableEq

/-- `MemoryCarver._get_read_size`. -/
def get_read_size (file_type : String) (max_size : Nat) : Nat :=
  if file_type == "script_scn" || file_type == "script_sn" then max_size
  else if file_type == "png" || file_type == "zlib_default" || file_type == "zlib_best" then
    min max_size 1048576
  else 2048

/-- `MemoryCarver._parse_size_result`: (file_size, is_xbox360,
script_name, is_complete). -/
def parse_size_result : SizeResult → Option Nat × Bool × Option String × Bool
  | .plain n => (some n, false, none, true)
  | .withFlags n x => (some n, x, none, true)
  | .script n x nm c => (some n, x, some nm, c)
  | .zlibDict _ => (none, false, none, true)

/-- `MemoryCarver._determine_file_size`.  The `dds`, script and zlib
branches are modelled from their parsers; every remaining branch returns
an optional plain `int` size and is abstracted by `cfg.otherSize`. -/
def determine_file_size (cfg : Config) (header_data : Buf) (file_type : String)
    (sig : SigInfo) : Option SizeResult :=
  if file_type == "dds" then
    match DDSParser.parse_header header_data 0 with
    | some info => some (.withFlags (min info.estimated_size sig.max_size) info.is_xbox360)
    | none => none
  else if file_type == "script_scn" || file_type == "script_sn" then
    match ScriptParser.parse_script header_data 0 100000 with
    | some si => some (.script (min si.size sig.max_size) false si.name si.is_complete)
    | none => none
  else if file_type == "zlib_default" || file_type == "zlib_best" then
    match try_decompress cfg.prims header_data 0 1048576 with
    | some r => if r.decompressed_size > 50 then some (.zlibDict r) else none
    | none => none
  else (cfg.otherSize file_type header_data).map .plain

/-- `MemoryCarver._generate_filename`; `count` is the value of
`self.stats[file_type]` at the moment of the call (after the increment
in `_extract_file`). -/
def generate_filename (file_type extension0 : String) (is_xbox360 : Bool)
    (script_name : Option String) (is_complete : Bool) (offset count : Nat) : String :=
  let extension := if file_type == "dds" && is_xbox360 then ".ddx" else extension0
  let fallback := file_type ++ "_" ++ pad4 count ++ "_off_" ++ hex8 offset ++ extension
  match script_name with
  | some n =>
    if n ≠ "" ∧ (file_type == "script_scn" || file_type == "script_sn") then
      if ¬ is_complete then n ++ "_INCOMPLETE" ++ extension else n ++ extension
    else fallback
  | none => fallback

/-- `MemoryCarver._save_zlib_stream`. -/
def save_zlib_stream (r : ZlibResult) (offset : Nat) (file_type : String)
    (st : CarverState) : CarverState :=
  let stats1 := statsSet st.stats file_type (statsGet st.stats file_type + 1)
  let count := statsGet stats1 file_type
  let subdir := "zlib_" ++ r.content_type
  let filename :=
    match r.name_hint with
    | some nh =>
      if nh ≠ "" then nh ++ "_" ++ pad4 count ++ r.extension
      else r.content_type ++ "_" ++ pad4 count ++ "_off_" ++ hex8 offset ++ r.extension
    | none => r.content_type ++ "_" ++ pad4 count ++ "_off_" ++ hex8 offset ++ r.extension
  let filename2 :=
    match fsGet st.fs (subdir ++ "/" ++ filename) with
    | some _ =>
      let se := splitext filename
      se.1 ++ "_off_" ++ hex8 offset ++ se.2
    | none => filename
  { stats := stats1,
    fs := fsSet st.fs (subdir ++ "/" ++ filename2) r.decompressed_data,
    manifest := st.manifest ++
      [⟨file_type, offset, r.compressed_size, r.decompressed_data.length,
        subdir ++ "/" ++ filename2, true, r.content_type⟩] }

/-- `MemoryCarver._extract_file` (its `except (IOError, OSError)` handler
never fires in the pure model; the effectful skeleton for the failure
claims is `EffCarve` below). -/
def extract_file (cfg : Config) (capture : Buf) (offset : Nat) (file_type : String)
    (sig : SigInfo) (st : CarverState) : CarverState :=
  let header_data := pySlice capture offset (get_read_size file_type sig.max_size)
  match determine_file_size cfg header_data file_type sig with
  | none => st
  | some (.zlibDict r) => save_zlib_stream r offset file_type st
  | some sr =>
    match (parse_size_result sr).1 with
    | none => st
    | some file_size =>
      if file_size < sig.min_size ∨ file_size > sig.max_size then st
      else
        let pr := parse_size_result sr
        let file_data := pySlice capture offset file_size
        let stats1 := statsSet st.stats file_type (statsGet st.stats file_type + 1)
        let filename := generate_filename file_type sig.extension pr.2.1 pr.2.2.1 pr.2.2.2
          offset (statsGet stats1 file_type)
        match fsGet st.fs (file_type ++ "/" ++ filename) with
        | some existing =>
          if existing = file_data then
            { st with stats := statsSet stats1 file_type (statsGet stats1 file_type - 1) }
          else
            let se := splitext filename
            let fn2 := se.1 ++ "_off_" ++ hex8 offset ++ se.2
            { stats := stats1,
              fs := fsSet st.fs (file_type ++ "/" ++ fn2) file_data,
              manifest := st.manifest ++
                [⟨file_type, offset, file_size, file_size,
                  file_type ++ "/" ++ fn2, false, ""⟩] }
        | none =>
          { stats := stats1,
            fs := fsSet st.fs (file_type ++ "/" ++ filename) file_data,
            manifest := st.manifest ++
              [⟨file_type, offset, file_size, file_size,
                file_type ++ "/" ++ filename, false, ""⟩] }

/-- `MemoryCarver._search_signature_in_chunk`.  `search_pos` advances by
at least one per iteration (every registry magic is non-empty), so fuel
`chunk.length + 1` reproduces the Python `while` loop. -/
def search_sig (cfg : Config) (capture chunk : Buf) (chunk_offset : Nat)
    (file_type : String) (sig : SigInfo) : Nat → Nat → CarverState → CarverState
  | 0, _, st => st
  | fuel + 1, search_pos, st =>
    if search_pos < chunk.length then
      match bytesFind chunk sig.magic search_pos with
      | none => st
      | some pos =>
        if pos < 2048 ∧ chunk_offset > 0 then
          search_sig cfg capture chunk chunk_offset file_type sig fuel (pos + 1) st
        else
          let st1 := extract_file cfg capture (chunk_offset + pos) file_type sig st
          search_sig cfg capture chunk chunk_offset file_type sig fuel
            (pos + sig.magic.length) st1
    else st

/-- `MemoryCarver._process_chunk` (its per-signature `except Exception`
never fires in the pure model). -/
def process_chunk (cfg : Config) (capture chunk : Buf) (chunk_offset : Nat)
    (sigs : List (String × SigInfo)) (st : CarverState) : CarverState :=
  sigs.foldl
    (fun st kv =>
      if statsGet st.stats kv.1 ≥ cfg.max_files_per_type then st
      else search_sig cfg capture chunk chunk_offset kv.1 kv.2 (chunk.length + 1) 0 st)
    st

/-- `MemoryCarver.carve_dump`: clear the manifest, narrow the registry,
then walk the capture in `chunk_size` windows, each read starting
`overlap` = 2048 bytes early (clamped at 0, which Nat subtraction gives
directly).  The Python `while offset < file_size` loop visits exactly the
offsets `k * chunk_size` for `k < ceil(file_size / chunk_size)`. -/
def carve_dump (cfg : Config) (capture : Buf) (file_types : Option (List String))
    (st0 : CarverState) : CarverState :=
  let st := { st0 with manifest := [] }
  let sigs :=
    match file_types with
    | none => cfg.sigs
    | some fts => cfg.sigs.filter fun kv => fts.contains kv.1
  let n := if cfg.chunk_size = 0 then 0
           else (capture.length + cfg.chunk_size - 1) / cfg.chunk_size
  (List.range n).foldl
    (fun st k =>
      let offset := k * cfg.chunk_size
      let s := offset - 2048
      let chunk := pySlice capture s (cfg.chunk_size + 2048)
      process_chunk cfg capture chunk s sigs st)
    st

/-- The `by_type` summary rows of `MemoryCarver._save_manifest`. -/
def summary_by_type (manifest : List CarveEntry) (t : String) : Nat × Nat × Nat :=
  manifest.foldl
    (fun acc e =>
      if e.file_type == t then
        (acc.1 + 1, acc.2.1 + e.size_in_dump, acc.2.2 + e.size_output)
      else acc)
    (0, 0, 0)

end MemoryCarver

section ConcreteScans

open MemoryCarver

/-- Runtime primitives that are never reached in the concrete scans
below (they only search `dds` and script signatures). -/
def unusedPrims : ZlibStreamParser.PyPrims :=
  ⟨fun _ => .error (), fun _ => .error (), fun _ => none, fun _ => ""⟩

/-- The default `MemoryCarver` configuration: `chunk_size = 10 MiB`,
`max_files_per_type = 10000`, the real registry. -/
def defaultConfig : Config :=
  ⟨FILE_SIGNATURES, 10485760, 10000, unusedPrims, fun _ _ => none⟩

/-- The capture of the concrete texture scenario: 256 zero bytes, then a
valid little-endian DDS header (width 256, height 256, DXT1, no mipmaps)
at offset 0x100. -/
def captureDDS : Buf :=
  List.replicate 256 0 ++ DDSParser.mkHeaderLE 256 256 0 0 68 88 84 49

/-- First scan of `captureDDS` for `dds`, from a fresh carver. -/
def scanDDS1 : CarverState := carve_dump defaultConfig captureDDS (some ["dds"]) initState

/-- Second scan of the same capture with the same carver and output
directory. -/
def scanDDS2 : CarverState := carve_dump defaultConfig captureDDS (some ["dds"]) scanDDS1

/-- The capture of the script scenario:
`"scn MyScript\nshort count\nEnd\nscn NextScript\n..."`. -/
def captureScript : Buf :=
  [115,99,110,32,77,121,83,99,114,105,112,116,10,
   115,104,111,114,116,32,99,111,117,110,116,10,
   69,110,100,10,
   115,99,110,32,78,101,120,116,83,99,114,105,112,116,10,
   46,46,46]

/-- First scan of `captureScript` for the two script signatures. -/
def scanScript1 : CarverState :=
  carve_dump defaultConfig captureScript (some ["script_scn", "script_sn"]) initState

/-- Second scan of `captureScript` with the same carver and output
directory. -/
def scanScript2 : CarverState :=
  carve_dump defaultConfig captureScript (some ["script_scn", "script_sn"]) scanScript1

end ConcreteScans

namespace DDSParser

/-- Value recomposed by a little-endian read of a little-endian field. -/
def dec32 (v : Nat) : Nat :=
  v % 256 + 256 * (v / 256 % 256) + 65536 * (v / 65536 % 256) + 16777216 * (v / 16777216 % 256)

/-- Value recomposed by a big-endian read of a big-endian field. -/
def dec32be (v : Nat) : Nat :=
  16777216 * (v / 16777216 % 256) + 65536 * (v / 65536 % 256) + 256 * (v / 256 % 256) + v % 256

/-- Value recomposed by a little-endian read of a big-endian field. -/
def swap32 (v : Nat) : Nat :=
  v / 16777216 % 256 + 256 * (v / 65536 % 256) + 65536 * (v / 256 % 256) + 16777216 * (v % 256)

end DDSParser

namespace ZlibStreamParser

/-- The verdict `try_decompress` reports when the buffer opens with a
complete compressed stream `C` whose payload is `P`: the payload itself,
the exact consumed byte count `C.length`, and the content classification
of `P`. -/
def expectedResult (pz : PyPrims) (C P : Buf) : ZlibResult :=
  let cen := determine_content_type pz P
  ⟨cen.1, cen.2.1, C.length, P.length, P, cen.2.2, (P.length : ℚ) / (C.length : ℚ)⟩

end ZlibStreamParser

namespace EffCarve

/-- Kind of Python exception, as the carver's handlers distinguish them:
`io` is `IOError`/`OSError` (caught inside `_extract_file`), `other` is
any other `Exception` (caught per signature in `_process_chunk`). -/
inductive PyErr where
  | io
  | other
deriving DecidableEq, Repr

/-- `_extract_file`'s `try/except (IOError, OSError)` around one
candidate (`e` is the outcome of the candidate's body: header read,
parse, output write): an I/O failure is logged and swallowed, any other
exception escapes. -/
def extract_fileE : Except PyErr Unit → Except PyErr Unit
  | .ok _ => .ok ()
  | .error .io => .ok ()
  | .error .other => .error .other

/-- The candidate loop of `_search_signature_in_chunk` for one
signature: run the candidates in order (each carries an id), stopping
only when `_extract_file` lets an exception escape.  Returns the ids
attempted and the loop outcome. -/
def runCandidates : List (Nat × Except PyErr Unit) → List Nat × Except PyErr Unit
  | [] => ([], .ok ())
  | (i, e) :: rest =>
    match extract_fileE e with
    | .ok _ =>
      let r := runCandidates rest
      (i :: r.1, r.2)
    | .error er => ([i], .error er)

/-- `_process_chunk`: iterate the signatures of one chunk; each
signature's candidate loop sits inside `except Exception`, so no
exception escapes a chunk.  Returns all attempted candidate ids. -/
def process_chunkE (sigJobs : List (List (Nat × Except PyErr Unit))) : List Nat :=
  sigJobs.foldl (fun acc job => acc ++ (runCandidates job).1) []

/-- Effect trace of one scan: `mkdirOk` is the output-directory
creation, `openOk` the capture open (including `os.path.getsize`),
`readChunk k` the k-th `f.seek`/`f.read` of the window loop, `jobs k`
the per-signature candidate outcomes of the k-th chunk, and
`saveManifestOk` the final `_save_manifest` write. -/
structure EffEnv where
  mkdirOk : Bool
  openOk : Bool
  nChunks : Nat
  readChunk : Nat → Except Unit Unit
  jobs : Nat → List (List (Nat × Except PyErr Unit))
  saveManifestOk : Bool

/-- The `while offset < file_size` loop of `carve_dump`: a chunk-read
failure propagates; candidate failures never do. -/
def chunkLoop (env : EffEnv) : List Nat → List Nat → Except Unit (List Nat)
  | [], acc => .ok acc
  | k :: ks, acc =>
    match env.readChunk k with
    | .error e => .error e
    | .ok _ => chunkLoop env ks (acc ++ process_chunkE (env.jobs k))

/-- `carve_dump`'s control skeleton: directory creation, capture open,
window loop, manifest persistence.  A `.error` is an exception that
reaches `carve_dump`'s caller and aborts the scan. -/
def carve_dumpE (env : EffEnv) : Except Unit (List Nat) :=
  if ¬ env.mkdirOk then .error ()
  else if ¬ env.openOk then .error ()
  else
    match chunkLoop env (List.range env.nChunks) [] with
    | .error e => .error e
    | .ok attempts => if env.saveManifestOk then .ok attempts else .error ()

/-- All candidate ids of a scan, in discovery order. -/
def allIds (env : EffEnv) : List Nat :=
  (List.range env.nChunks).foldl
    (fun acc k => acc ++ (env.jobs k).foldl (fun a job => a ++ job.map (·.1)) [])
    []

/-- An effect trace whose capture is fully readable but whose final
manifest write fails. -/
def envManifestFail : EffEnv :=
  ⟨true, true, 1, fun _ => .ok (), fun _ => [], false⟩

/-- An effect trace with one chunk and one signature whose first
candidate fails with an I/O error and whose second succeeds. -/
def envIOFail : EffEnv :=
  ⟨true, true, 1, fun _ => .ok (), fun _ => [[(0, .error .io), (1, .ok ())]], true⟩

end EffCarve

section ToyInstances

/-- A three-byte "compressed stream" for exercising the stream oracle:
zlib default-compression header `78 9C` plus one byte. -/
def toyC : Buf := [120, 156, 7]

/-- 24-byte payload (above the oracle's 20-byte floor). -/
def toyP : Buf := List.replicate 24 5

/-- 5-byte payload (below the oracle's 20-byte floor). -/
def toySmallP : Buf := List.replicate 5 5

/-- Trailing garbage after the stream. -/
def toyTrailing : Buf := List.replicate 7 9

/-- A decompressor model under which `toyC` is a complete stream with
payload `toyP`: decompression succeeds exactly when the buffer starts
with all of `toyC`, ignoring trailing bytes, and the incremental
decompressor consumes exactly `toyC`. -/
def toyPrimsOK : ZlibStreamParser.PyPrims :=
  ⟨fun buf => if buf.take 3 = toyC then .ok toyP else .error (),
   fun buf => if buf.take 3 = toyC then .ok (buf.drop 3) else .error (),
   fun _ => none, fun _ => ""⟩

/-- The same decompressor model except that `toyC`'s payload is the
5-byte `toySmallP`. -/
def toyPrimsSmall : ZlibStreamParser.PyPrims :=
  ⟨fun buf => if buf.take 3 = toyC then .ok toySmallP else .error (),
   fun buf => if buf.take 3 = toyC then .ok (buf.drop 3) else .error (),
   fun _ => none, fun _ => ""⟩

end ToyInstances

namespace MemoryCarver

/-- What is true of every entry that `_extract_file` or
`_save_zlib_stream` appends while handling a hit of signature
`(file_type, sig)`: the record carries that type, and a non-stream
record has equal consumed/output sizes that passed the
`[min_size, max_size]` gate. -/
def newEntryOK (file_type : String) (sig : SigInfo) (r : CarveEntry) : Prop :=
  r.file_type = file_type ∧
  (r.is_compressed = false →
    r.size_in_dump = r.size_output ∧
    sig.min_size ≤ r.size_in_dump ∧ r.size_in_dump ≤ sig.max_size)

theorem save_zlib_mem {r0 : ZlibStreamParser.ZlibResult} {offset : Nat}
    {file_type : String} {st : CarverState} {r : CarveEntry}
    (h : r ∈ (save_zlib_stream r0 offset file_type st).manifest) :
    r ∈ st.manifest ∨ (r.file_type = file_type ∧ r.is_compressed = true) := by
  unfold save_zlib_stream at h
  simp only [List.mem_append, List.mem_singleton] at h
  rcases h with h | h
  · exact Or.inl h
  · subst h; exact Or.inr ⟨rfl, rfl⟩

theorem extract_file_mem {cfg : Config} {capture : Buf} {offset : Nat}
    {file_type : String} {sig : SigInfo} {st : CarverState} {r : CarveEntry}
    (h : r ∈ (extract_file cfg capture offset file_type sig st).manifest) :
    r ∈ st.manifest ∨ newEntryOK file_type sig r := by
  unfold extract_file at h
  dsimp only at h
  split at h
  · exact Or.inl h
  · rcases save_zlib_mem h with hm | ⟨hft, hc⟩
    · exact Or.inl hm
    · exact Or.inr ⟨hft, by simp [hc]⟩
  all_goals
    split at h
    · exact Or.inl h
    · split at h
      · exact Or.inl h
      · rename_i hsz
        split at h
        · split at h
          · exact Or.inl h
          · simp only [List.mem_append, List.mem_singleton] at h
            rcases h with h | h
            · exact Or.inl h
            · subst h
              refine Or.inr ⟨rfl, fun _ => ⟨rfl, ?_, ?_⟩⟩ <;> dsimp only <;> omega
        · simp only [List.mem_append, List.mem_singleton] at h
          rcases h with h | h
          · exact Or.inl h
          · subst h
            refine Or.inr ⟨rfl, fun _ => ⟨rfl, ?_, ?_⟩⟩ <;> dsimp only <;> omega

theorem search_sig_mem {cfg : Config} {capture chunk : Buf} {chunk_offset : Nat}
    {file_type : String} {sig : SigInfo} :
    ∀ (fuel search_pos : Nat) (st : CarverState) (r : CarveEntry),
    r ∈ (search_sig cfg capture chunk chunk_offset file_type sig fuel search_pos st).manifest →
    r ∈ st.manifest ∨ newEntryOK file_type sig r := by
  intro fuel
  induction fuel with
  | zero => intro sp st r h; exact Or.inl h
  | succ f ih =>
    intro sp st r h
    unfold search_sig at h
    split at h
    · split at h
      · exact Or.inl h
      · split at h
        · exact ih _ _ _ h
        · rcases ih _ _ _ h with h1 | h1
          · exact extract_file_mem h1
          · exact Or.inr h1
    · exact Or.inl h

theorem process_chunk_mem {cfg : Config} {capture chunk : Buf} {chunk_offset : Nat}
    (M : List (String × SigInfo)) :
    ∀ (L : List (String × SigInfo)), (∀ x ∈ L, x ∈ M) → ∀ (st : CarverState) (r : CarveEntry),
    r ∈ (process_chunk cfg capture chunk chunk_offset L st).manifest →
    r ∈ st.manifest ∨ ∃ e ∈ M, newEntryOK e.1 e.2 r := by
  intro L
  induction L with
  | nil => intro _ st r h; exact Or.inl h
  | cons a L ih =>
    intro hL st r h
    unfold process_chunk at h
    rw [List.foldl_cons] at h
    have h2 := ih (fun x hx => hL x (List.mem_cons_of_mem a hx)) _ r (by
      unfold process_chunk
      exact h)
    rcases h2 with h1 | h1
    · by_cases hc : statsGet st.stats a.1 ≥ cfg.max_files_per_type
      · rw [if_pos hc] at h1; exact Or.inl h1
      · rw [if_neg hc] at h1
        rcases search_sig_mem _ _ _ _ h1 with h2 | h2
        · exact Or.inl h2
        · exact Or.inr ⟨a, hL a (List.mem_cons_self a L), h2⟩
    · exact Or.inr h1

theorem foldl_manifest_mem {α : Type} (sigs2 : List (String × SigInfo))
    (f : CarverState → α → CarverState)
    (hf : ∀ (st : CarverState) (a : α) (r : CarveEntry),
      r ∈ (f st a).manifest → r ∈ st.manifest ∨ ∃ e ∈ sigs2, newEntryOK e.1 e.2 r) :
    ∀ (l : List α) (st : CarverState) (r : CarveEntry),
    r ∈ (l.foldl f st).manifest → r ∈ st.manifest ∨ ∃ e ∈ sigs2, newEntryOK e.1 e.2 r := by
  intro l
  induction l with
  | nil => intro st r h; exact Or.inl h
  | cons a l ih =>
    intro st r h
    rw [List.foldl_cons] at h
    rcases ih (f st a) r h with h1 | h1
    · exact hf st a r h1
    · exact Or.inr h1

/-- Every record a scan puts in the manifest was appended by this scan
while handling a hit of some registry signature, and satisfies the
per-entry guarantee of `_extract_file` / `_save_zlib_stream`. -/
theorem carve_dump_mem {cfg : Config} {capture : Buf} {file_types : Option (List String)}
    {st0 : CarverState} {r : CarveEntry}
    (h : r ∈ (carve_dump cfg capture file_types st0).manifest) :
    ∃ e ∈ cfg.sigs, newEntryOK e.1 e.2 r := by
  unfold carve_dump at h
  dsimp only at h
  set sigs2 := (match file_types with
    | none => cfg.sigs
    | some fts => cfg.sigs.filter fun kv => fts.contains kv.1) with hsigs
  have hsub : ∀ x ∈ sigs2, x ∈ cfg.sigs := by
    intro x hx
    rw [hsigs] at hx
    cases file_types with
    | none => exact hx
    | some fts => exact (List.mem_filter.mp hx).1
  have hmain := foldl_manifest_mem sigs2 _
    (fun st k rr hr => process_chunk_mem sigs2 sigs2 (fun x hx => hx) st rr hr)
    _ _ r h
  rcases hmain with h1 | ⟨e, he, hok⟩
  · exact absurd h1 (List.not_mem_nil r)
  · exact ⟨e, hsub e he, hok⟩

end MemoryCarver

namespace MemoryCarver

/-- `carve_dump` starts with `self.manifest.clear()`, so the whole scan
result only depends on the incoming counters and output tree, never on
the previously accumulated record list. -/
theorem carve_dump_manifest_independent (cfg : Config) (capture : Buf)
    (file_types : Option (List String)) (st1 st2 : CarverState)
    (hstats : st1.stats = st2.stats) (hfs : st1.fs = st2.fs) :
    carve_dump cfg capture file_types st1 = carve_dump cfg capture file_types st2 := by
  cases st1 with
  | mk s1 m1 f1 =>
    cases st2 with
    | mk s2 m2 f2 =>
      dsimp only at hstats hfs
      subst hstats
      subst hfs
      rfl

end MemoryCarver

section OracleTotality

/-- A fold whose step never increases the accumulator stays below the
initial value (the `min`-chain in `_find_script_end`). -/
theorem foldl_le_init {α : Type} (f : Nat → α → Nat) (hf : ∀ acc a, f acc a ≤ acc) :
    ∀ (l : List α) (init : Nat), l.foldl f init ≤ init := by
  intro l
  induction l with
  | nil => intro init; exact Nat.le_refl init
  | cons a l ih =>
    intro init
    exact Nat.le_trans (ih (f init a)) (hf init a)

theorem trimEnd_ok (s : Buf) : ∀ e, e ≤ s.length → ∃ k, ScriptParser.trimEnd s e = .ok k := by
  intro e
  induction e with
  | zero => intro _; exact ⟨0, rfl⟩
  | succ e ih =>
    intro he
    rcases hg : s.get? e with _ | b
    · rw [List.get?_eq_none] at hg
      omega
    · unfold ScriptParser.trimEnd
      rw [hg]
      dsimp only
      by_cases hb : b == 9 || b == 10 || b == 13 || b == 32
      · rw [if_pos hb]
        exact ih (by omega)
      · rw [if_neg hb]
        exact ⟨e + 1, rfl⟩

theorem find_script_endE_ok (sd : Buf) (fle : Nat) :
    ∃ k, ScriptParser.find_script_endE sd fle = .ok k := by
  unfold ScriptParser.find_script_endE
  dsimp only
  have h1 : ScriptParser.SCRIPT_HEADERS.foldl
      (fun e hdr =>
        match bytesFind sd hdr (fle + 1) with
        | some next_script =>
          match rfindByte sd 10 next_script with
          | some boundary => min e boundary
          | none => min e next_script
        | none => e)
      sd.length ≤ sd.length := by
    apply foldl_le_init
    intro acc a
    rcases hbf : bytesFind sd a (fle + 1) with _ | ns
    · exact Nat.le_refl acc
    · dsimp only
      rcases hrf : rfindByte sd 10 ns with _ | b
      · exact Nat.min_le_left acc ns
      · exact Nat.min_le_left acc b
  rcases hidx : (sd.take (ScriptParser.SCRIPT_HEADERS.foldl _ sd.length)).findIdx? ScriptParser.isGarbage with _ | i
  · exact trimEnd_ok sd _ h1
  · exact trimEnd_ok sd _ (Nat.le_trans (Nat.min_le_left _ _) h1)

theorem parse_script_finish_ok (sd : Buf) (fle : Nat) (nm : String) :
    ∃ r, ScriptParser.parse_script_finish sd fle nm = .ok r := by
  unfold ScriptParser.parse_script_finish
  obtain ⟨k, hk⟩ := find_script_endE_ok sd fle
  rw [hk]
  dsimp only
  split
  · exact ⟨none, rfl⟩
  · exact ⟨_, rfl⟩

theorem parse_scriptE_ok (data : Buf) (offset max_size : Nat) :
    ∃ r, ScriptParser.parse_scriptE data offset max_size = .ok r := by
  unfold ScriptParser.parse_scriptE
  split
  · exact ⟨none, rfl⟩
  · dsimp only
    split
    · exact ⟨none, rfl⟩
    · split
      · exact ⟨none, rfl⟩
      · split
        · exact ⟨none, rfl⟩
        · exact parse_script_finish_ok _ _ _

theorem catchToNone_ok (e : Except Unit (Option XMAParser.XMAInfo)) :
    ∃ r, XMAParser.catchToNone e = .ok r := by
  cases e <;> exact ⟨_, rfl⟩

theorem xma_parse_headerE_ok (data : Buf) (offset : Nat) :
    ∃ r, XMAParser.parse_headerE data offset = .ok r := by
  unfold XMAParser.parse_headerE
  split
  · exact ⟨none, rfl⟩
  · exact catchToNone_ok _

theorem ratDiv_ok (a : Nat) {b : Nat} (h : 0 < b) :
    ZlibStreamParser.ratDiv a b = .ok ((a : ℚ) / (b : ℚ)) := by
  unfold ZlibStreamParser.ratDiv
  rw [if_neg (by omega)]

theorem tryLoopE_ok (pz : ZlibStreamParser.PyPrims) (data : Buf) (offset : Nat) :
    ∀ l, ∃ r, ZlibStreamParser.tryLoopE pz data offset l = .ok r := by
  intro l
  induction l with
  | nil => exact ⟨none, rfl⟩
  | cons ts rest ih =>
    unfold ZlibStreamParser.tryLoopE
    dsimp only
    rcases hdec : pz.decompress (pySlice data offset (min (offset + ts) data.length - offset))
      with _ | dec
    · exact ih
    · dsimp only
      by_cases h20 : dec.length < 20
      · rw [if_pos h20]
        exact ih
      · rw [if_neg h20]
        rcases hun : pz.unusedAfter (pySlice data offset (min (offset + ts) data.length - offset))
          with _ | u
        · exact ih
        · dsimp only
          by_cases ha :
            (pySlice data offset (min (offset + ts) data.length - offset)).length - u.length > 0
          · rw [if_pos ha, ratDiv_ok _ ha]
            exact ⟨_, rfl⟩
          · rw [if_neg ha]
            exact ⟨_, rfl⟩

theorem try_decompressE_ok (pz : ZlibStreamParser.PyPrims) (data : Buf)
    (offset max_compressed_size : Nat) :
    ∃ r, ZlibStreamParser.try_decompressE pz data offset max_compressed_size = .ok r := by
  unfold ZlibStreamParser.try_decompressE
  split
  · exact ⟨none, rfl⟩
  · split
    · exact ⟨none, rfl⟩
    · exact tryLoopE_ok pz data offset _

end OracleTotality

namespace DDSParser

theorem dec32_eq {v : Nat} (hv : v < 4294967296) : dec32 v = v := by
  unfold dec32; omega

theorem dec32be_eq {v : Nat} (hv : v < 4294967296) : dec32be v = v := by
  unfold dec32be; omega

theorem parse_mkHeaderLE (w h p m a b c d : Nat)
    (hw1 : 0 < w) (hw2 : w ≤ 16384) (hh1 : 0 < h) (hh2 : h ≤ 16384) :
    ∃ info, parse_header (mkHeaderLE w h p m a b c d) 0 = some info ∧
      info.width = w ∧ info.height = h ∧ info.endianness = "little" ∧
      info.is_xbox360 = false := by
  have hw : dec32 w = w := dec32_eq (by omega)
  have hh : dec32 h = h := dec32_eq (by omega)
  unfold parse_header
  rw [if_neg (show ¬ (mkHeaderLE w h p m a b c d).length < 0 + 128 by
    rw [show (mkHeaderLE w h p m a b c d).length = 128 from rfl]; omega)]
  dsimp only
  rw [if_neg (show ¬ pySlice (pySlice (mkHeaderLE w h p m a b c d) 0 128) 0 4 ≠ [68,68,83,32]
    from fun hne => hne rfl)]
  rw [show read_uint32_le (pySlice (mkHeaderLE w h p m a b c d) 0 128) 4 = some 124 from rfl,
      show read_uint32_le (pySlice (mkHeaderLE w h p m a b c d) 0 128) 12 = some (dec32 h) from rfl,
      show read_uint32_le (pySlice (mkHeaderLE w h p m a b c d) 0 128) 16 = some (dec32 w) from rfl,
      show read_uint32_le (pySlice (mkHeaderLE w h p m a b c d) 0 128) 20 = some (dec32 p) from rfl,
      show read_uint32_le (pySlice (mkHeaderLE w h p m a b c d) 0 128) 28 = some (dec32 m) from rfl]
  dsimp only
  rw [hw, hh]
  rw [if_neg (show ¬ (h > 16384 ∨ w > 16384 ∨ 124 ≠ 124) by omega)]
  unfold parse_header.parse_tail
  rw [if_neg (show ¬ (h = 0 ∨ w = 0 ∨ h > 16384 ∨ w > 16384) by omega)]
  dsimp only
  split
  · exact ⟨_, rfl, rfl, rfl, rfl, rfl⟩
  · exact ⟨_, rfl, rfl, rfl, rfl, rfl⟩

set_option maxHeartbeats 1000000 in
theorem parse_mkHeaderBE (w h p m a b c d : Nat)
    (hw1 : 0 < w) (hw2 : w ≤ 16384) (hh1 : 0 < h) (hh2 : h ≤ 16384) :
    ∃ info, parse_header (mkHeaderBE w h p m a b c d) 0 = some info ∧
      info.width = w ∧ info.height = h ∧ info.endianness = "big" ∧
      info.is_xbox360 = true := by
  have hw : dec32be w = w := dec32be_eq (by omega)
  have hh : dec32be h = h := dec32be_eq (by omega)
  unfold parse_header
  rw [if_neg (show ¬ (mkHeaderBE w h p m a b c d).length < 0 + 128 by
    rw [show (mkHeaderBE w h p m a b c d).length = 128 from rfl]; omega)]
  dsimp only
  rw [if_neg (show ¬ pySlice (pySlice (mkHeaderBE w h p m a b c d) 0 128) 0 4 ≠ [68,68,83,32]
    from fun hne => hne rfl)]
  rw [show read_uint32_le (pySlice (mkHeaderBE w h p m a b c d) 0 128) 4 = some 2080374784 from rfl,
      show read_uint32_le (pySlice (mkHeaderBE w h p m a b c d) 0 128) 12 = some (swap32 h) from rfl,
      show read_uint32_le (pySlice (mkHeaderBE w h p m a b c d) 0 128) 16 = some (swap32 w) from rfl,
      show read_uint32_le (pySlice (mkHeaderBE w h p m a b c d) 0 128) 20 = some (swap32 p) from rfl,
      show read_uint32_le (pySlice (mkHeaderBE w h p m a b c d) 0 128) 28 = some (swap32 m) from rfl]
  dsimp only
  rw [if_pos (show swap32 h > 16384 ∨ swap32 w > 16384 ∨ 2080374784 ≠ 124
    from Or.inr (Or.inr (by omega)))]
  rw [show read_uint32_be (pySlice (mkHeaderBE w h p m a b c d) 0 128) 12 = some (dec32be h) from rfl,
      show read_uint32_be (pySlice (mkHeaderBE w h p m a b c d) 0 128) 16 = some (dec32be w) from rfl,
      show read_uint32_be (pySlice (mkHeaderBE w h p m a b c d) 0 128) 20 = some (dec32be p) from rfl,
      show read_uint32_be (pySlice (mkHeaderBE w h p m a b c d) 0 128) 28 = some (dec32be m) from rfl]
  dsimp only
  rw [hw, hh]
  unfold parse_header.parse_tail
  rw [if_neg (show ¬ (h = 0 ∨ w = 0 ∨ h > 16384 ∨ w > 16384) by omega)]
  dsimp only
  split
  · exact ⟨_, rfl, rfl, rfl, rfl, rfl⟩
  · exact ⟨_, rfl, rfl, rfl, rfl, rfl⟩

end DDSParser

namespace ZlibStreamParser

theorem tryLoop_step (pz : PyPrims) (C P trailing : Buf)
    (hC2 : 2 ≤ C.length) (hP : 20 ≤ P.length)
    (hdec : ∀ t, pz.decompress (C ++ t) = .ok P)
    (hpre : ∀ n, n < C.length → pz.decompress (C.take n) = .error ())
    (hun : ∀ t, pz.unusedAfter (C ++ t) = .ok t)
    (ts : Nat) (rest : List Nat) :
    tryLoopE pz (C ++ trailing) 0 (ts :: rest) =
      if C.length ≤ min ts (C ++ trailing).length
      then .ok (some (expectedResult pz C P))
      else tryLoopE pz (C ++ trailing) 0 rest := by
  conv_lhs => rw [tryLoopE]
  simp only [Nat.zero_add, Nat.sub_zero, pySlice, List.drop_zero]
  by_cases hle : C.length ≤ min ts (C ++ trailing).length
  · rw [if_pos hle]
    rw [show (C ++ trailing).take (min ts (C ++ trailing).length) =
        C ++ trailing.take (min ts (C ++ trailing).length - C.length) by
      rw [List.take_append_eq_append_take, List.take_of_length_le hle]]
    rw [hdec, hun]
    dsimp only
    rw [if_neg (show ¬ P.length < 20 by omega)]
    have hlen : (C ++ trailing.take (min ts (C ++ trailing).length - C.length)).length -
        (trailing.take (min ts (C ++ trailing).length - C.length)).length = C.length := by
      rw [List.length_append]; omega
    rw [hlen]
    rw [if_pos (show C.length > 0 by omega), ratDiv_ok _ (show 0 < C.length by omega)]
    rfl
  · rw [if_neg hle]
    rw [show (C ++ trailing).take (min ts (C ++ trailing).length) =
        C.take (min ts (C ++ trailing).length) by
      rw [List.take_append_eq_append_take, Nat.sub_eq_zero_of_le (by omega), List.take_zero,
        List.append_nil]]
    rw [hpre _ (by omega)]

/-- Round trip of the stream oracle: when a complete compressed stream
`C` with payload `P` (at least 20 bytes) sits at offset 0 followed by
arbitrary trailing bytes, the oracle returns exactly `P` and the exact
consumed length `C.length`.  The abstract decompressor hypotheses state
what `zlib` guarantees for a well-formed stream: decompression succeeds
and ignores trailing garbage, fails on every strict front part of the
stream, and `decompressobj` leaves exactly the trailing bytes unused. -/
theorem try_decompress_roundtrip (pz : PyPrims) (C P trailing : Buf)
    (hhdr : C.take 2 = [120,1] ∨ C.take 2 = [120,156] ∨ C.take 2 = [120,218])
    (hC2 : 2 ≤ C.length) (hCmax : C.length ≤ 1048576)
    (hlen : 10 ≤ (C ++ trailing).length) (hP : 20 ≤ P.length)
    (hdec : ∀ t, pz.decompress (C ++ t) = .ok P)
    (hpre : ∀ n, n < C.length → pz.decompress (C.take n) = .error ())
    (hun : ∀ t, pz.unusedAfter (C ++ t) = .ok t) :
    try_decompressE pz (C ++ trailing) 0 1048576 = .ok (some (expectedResult pz C P)) ∧
    (expectedResult pz C P).decompressed_data = P ∧
    (expectedResult pz C P).compressed_size = C.length := by
  refine ⟨?_, rfl, rfl⟩
  unfold try_decompressE
  rw [if_neg (show ¬ (C ++ trailing).length < 0 + 10 by omega)]
  have htake : pySlice (C ++ trailing) 0 2 = C.take 2 := by
    simp only [pySlice, List.drop_zero]
    rw [List.take_append_eq_append_take, Nat.sub_eq_zero_of_le (by omega), List.take_zero,
      List.append_nil]
  rw [if_neg (by rw [htake]; exact not_not_intro hhdr)]
  rw [tryLoop_step pz C P trailing hC2 hP hdec hpre hun 1024 _,
      tryLoop_step pz C P trailing hC2 hP hdec hpre hun 4096 _,
      tryLoop_step pz C P trailing hC2 hP hdec hpre hun 16384 _,
      tryLoop_step pz C P trailing hC2 hP hdec hpre hun 65536 _,
      tryLoop_step pz C P trailing hC2 hP hdec hpre hun 262144 _,
      tryLoop_step pz C P trailing hC2 hP hdec hpre hun 1048576 _]
  have h6 : C.length ≤ min 1048576 (C ++ trailing).length := by
    rw [List.length_append]
    exact le_min hCmax (by omega)
  rw [if_pos h6, ite_self, ite_self, ite_self, ite_self, ite_self]

end ZlibStreamParser

namespace EffCarve

theorem runCandidates_complete (job : List (Nat × Except PyErr Unit))
    (h : ∀ i e, (i, e) ∈ job → e ≠ .error .other) :
    runCandidates job = (job.map (·.1), .ok ()) := by
  induction job with
  | nil => rfl
  | cons a rest ih =>
    rcases a with ⟨i, e⟩
    have hstep : extract_fileE e = .ok () := by
      rcases e with er | u
      · rcases er with _ | _
        · rfl
        · exact absurd rfl (h i (.error .other) (List.mem_cons_self _ _))
      · rfl
    unfold runCandidates
    rw [hstep]
    rw [ih fun i2 e2 hm => h i2 e2 (List.mem_cons_of_mem _ hm)]
    rfl

theorem process_chunkE_complete (sigJobs : List (List (Nat × Except PyErr Unit)))
    (h : ∀ job, job ∈ sigJobs → ∀ i e, (i, e) ∈ job → e ≠ .error .other) :
    process_chunkE sigJobs = sigJobs.foldl (fun a job => a ++ job.map (·.1)) [] := by
  unfold process_chunkE
  have main : ∀ (L : List (List (Nat × Except PyErr Unit))),
      (∀ job, job ∈ L → ∀ i e, (i, e) ∈ job → e ≠ .error .other) →
      ∀ acc : List Nat,
      L.foldl (fun acc job => acc ++ (runCandidates job).1) acc =
      L.foldl (fun a job => a ++ job.map (·.1)) acc := by
    intro L
    induction L with
    | nil => intro _ acc; rfl
    | cons j L ih =>
      intro hL acc
      rw [List.foldl_cons, List.foldl_cons,
        runCandidates_complete j (hL j (List.mem_cons_self _ _))]
      exact ih (fun job hm => hL job (List.mem_cons_of_mem _ hm)) _
  exact main sigJobs h []

theorem chunkLoop_ok (env : EffEnv) :
    ∀ (ks : List Nat) (acc : List Nat), (∀ k ∈ ks, env.readChunk k = .ok ()) →
    chunkLoop env ks acc =
      .ok (ks.foldl (fun acc k => acc ++ process_chunkE (env.jobs k)) acc) := by
  intro ks
  induction ks with
  | nil => intro acc _; rfl
  | cons k ks ih =>
    intro acc hread
    unfold chunkLoop
    rw [hread k (List.mem_cons_self _ _)]
    exact ih _ fun k2 hm => hread k2 (List.mem_cons_of_mem _ hm)

end EffCarve

section ClaimTheorems

open MemoryCarver

set_option maxRecDepth 100000

theorem toyPrimsSmall_dec (t : Buf) : toyPrimsSmall.decompress (toyC ++ t) = .ok toySmallP := by
  show (if (toyC ++ t).take 3 = toyC then Except.ok toySmallP else Except.error ()) =
    Except.ok toySmallP
  rw [if_pos (show (toyC ++ t).take 3 = toyC from rfl)]

theorem toyPrimsSmall_pre (n : Nat) (hn : n < toyC.length) :
    toyPrimsSmall.decompress (toyC.take n) = .error () := by
  have h3 : n < 3 := hn
  interval_cases n <;> rfl

theorem toyPrimsSmall_un (t : Buf) : toyPrimsSmall.unusedAfter (toyC ++ t) = .ok t := by
  show (if (toyC ++ t).take 3 = toyC then Except.ok ((toyC ++ t).drop 3) else Except.error ()) =
    Except.ok t
  rw [if_pos (show (toyC ++ t).take 3 = toyC from rfl)]
  rfl

theorem toyPrimsOK_dec (t : Buf) : toyPrimsOK.decompress (toyC ++ t) = .ok toyP := by
  show (if (toyC ++ t).take 3 = toyC then Except.ok toyP else Except.error ()) = Except.ok toyP
  rw [if_pos (show (toyC ++ t).take 3 = toyC from rfl)]

theorem toyPrimsOK_pre (n : Nat) (hn : n < toyC.length) :
    toyPrimsOK.decompress (toyC.take n) = .error () := by
  have h3 : n < 3 := hn
  interval_cases n <;> rfl

theorem toyPrimsOK_un (t : Buf) : toyPrimsOK.unusedAfter (toyC ++ t) = .ok t := by
  show (if (toyC ++ t).take 3 = toyC then Except.ok ((toyC ++ t).drop 3) else Except.error ()) =
    Except.ok t
  rw [if_pos (show (toyC ++ t).take 3 = toyC from rfl)]
  rfl

/-- Claim C1, counterexample: the concrete texture scenario (valid
little-endian 256x256 DXT1 header at offset 0x100) does yield exactly
one carve record, but its size is not 33024 and its output path is not
`textures/tex_0000_off_00000100.ext`: `128 + (256/4)*(256/4)*8` is
32896, and the carver writes under the type id with a counter that
starts at 1 (`dds/dds_0001_off_00000100.dds`). -/
theorem c1_counterexample :
    scanDDS1.manifest.length = 1 ∧
    scanDDS1.manifest.all
      (fun r => r.size_in_dump != 33024 &&
        r.filename != "textures/tex_0000_off_00000100.ext") = true := by
  decide

/-- Claim C1 as amended: the scan yields exactly one record at offset
0x100 with size `128 + (256/4)*(256/4)*8 = 32896` and output path
`dds/dds_0001_off_00000100.dds`. -/
theorem c1_amended :
    scanDDS1.manifest =
      [⟨"dds", 256, 32896, 32896, "dds/dds_0001_off_00000100.dds", false, ""⟩] ∧
    32896 = 128 + (256 / 4) * (256 / 4) * 8 := by
  decide

/-- Claim C2, counterexample: re-scanning the texture capture with the
same carver and output directory does not leave things unchanged — the
per-type counter moves from 1 to 2, a second output file appears
(`dds_0002_...`, since the duplicate check only fires on an identical
generated name, and the name embeds the counter), and the second run's
manifest differs from the first run's. -/
theorem c2_counterexample :
    MemoryCarver.statsGet scanDDS2.stats "dds" = 2 ∧
    MemoryCarver.statsGet scanDDS1.stats "dds" = 1 ∧
    scanDDS2.fs.length = 2 ∧ scanDDS1.fs.length = 1 ∧
    scanDDS2.manifest ≠ scanDDS1.manifest := by
  decide

/-- Claim C2 as amended: re-scanning is idempotent only for records
whose filenames do not embed the counter.  In the script scenario the
second run rewrites nothing (duplicate content under the same name is
skipped and the counter is restored), but the manifest — cleared at the
start of every run — ends empty rather than equal to the first run's. -/
theorem c2_amended :
    scanScript2.stats = scanScript1.stats ∧
    scanScript2.fs = scanScript1.fs ∧
    scanScript2.manifest = [] ∧
    scanScript1.manifest =
      [⟨"script_scn", 0, 28, 28, "script_scn/MyScript.txt", false, ""⟩] := by
  decide

/-- Claim C3, counterexample: the per-type counters are not reset by
`carve_dump` — after a second scan of the same capture the `dds` counter
is 2, and the second scan's records (filename `dds_0002_...`) differ
from the first scan's, so records and counter values are not independent
of earlier scans with the same carver. -/
theorem c3_counterexample :
    MemoryCarver.statsGet scanDDS2.stats "dds" = 2 ∧
    MemoryCarver.statsGet scanDDS1.stats "dds" = 1 ∧
    scanDDS2.manifest ≠ scanDDS1.manifest := by
  decide

/-- Claim C3 as amended: only the record list is reset at the start of
every `carve_dump` — the scan result is independent of the previously
accumulated manifest (it depends only on the capture, the counters and
the output tree) — while the per-type counters persist across scans. -/
theorem c3_amended (cfg : Config) (capture : Buf)
    (file_types : Option (List String)) (st1 st2 : CarverState)
    (hstats : st1.stats = st2.stats) (hfs : st1.fs = st2.fs) :
    carve_dump cfg capture file_types st1 = carve_dump cfg capture file_types st2 :=
  carve_dump_manifest_independent cfg capture file_types st1 st2 hstats hfs

/-- Witness for the amended claim C3: a fresh carver and one whose
manifest still holds a stale record produce identical scans. -/
theorem c3_amended_witness :
    (initState.stats = (⟨[], [⟨"dds", 0, 1, 1, "stale", false, ""⟩], []⟩ : CarverState).stats) ∧
    (initState.fs = (⟨[], [⟨"dds", 0, 1, 1, "stale", false, ""⟩], []⟩ : CarverState).fs) ∧
    carve_dump defaultConfig captureDDS (some ["dds"]) initState =
      carve_dump defaultConfig captureDDS (some ["dds"])
        ⟨[], [⟨"dds", 0, 1, 1, "stale", false, ""⟩], []⟩ :=
  ⟨rfl, rfl,
   c3_amended defaultConfig captureDDS (some ["dds"]) initState
     ⟨[], [⟨"dds", 0, 1, 1, "stale", false, ""⟩], []⟩ rfl rfl⟩

/-- Claim C4: every record of a scan that was not produced by the
decompressed-stream path has both its sizes inside the governing
descriptor's `[min_size, max_size]`; stream records
(`is_compressed = true`) are exempt. -/
theorem c4_sizes_within_bounds (cfg : Config) (capture : Buf)
    (file_types : Option (List String)) (st0 : CarverState) (r : CarveEntry)
    (hr : r ∈ (carve_dump cfg capture file_types st0).manifest)
    (hc : r.is_compressed = false) :
    ∃ si : SigInfo, (r.file_type, si) ∈ cfg.sigs ∧
      si.min_size ≤ r.size_in_dump ∧ r.size_in_dump ≤ si.max_size ∧
      si.min_size ≤ r.size_output ∧ r.size_output ≤ si.max_size := by
  obtain ⟨e, he, hft, hprop⟩ := carve_dump_mem hr
  obtain ⟨heq, hmin, hmax⟩ := hprop hc
  refine ⟨e.2, ?_, hmin, hmax, ?_, ?_⟩
  · rw [hft]
    exact he
  · omega
  · omega

/-- Witness for claim C4 at the concrete texture scan. -/
theorem c4_witness :
    ((⟨"dds", 256, 32896, 32896, "dds/dds_0001_off_00000100.dds", false, ""⟩ : CarveEntry) ∈
      scanDDS1.manifest) ∧
    ∃ si : SigInfo, ("dds", si) ∈ defaultConfig.sigs ∧
      si.min_size ≤ 32896 ∧ 32896 ≤ si.max_size ∧
      si.min_size ≤ 32896 ∧ 32896 ≤ si.max_size :=
  ⟨by decide,
   c4_sizes_within_bounds defaultConfig captureDDS (some ["dds"]) initState
     ⟨"dds", 256, 32896, 32896, "dds/dds_0001_off_00000100.dds", false, ""⟩
     (by decide) rfl⟩

/-- Claim C5, counterexample: the round trip fails as stated.  Under a
decompressor model satisfying every premise of the claim (the stream
`toyC` decompresses to the 5-byte payload `toySmallP`, trailing bytes
are ignored, strict front parts fail, the incremental decompressor
consumes exactly `toyC`), the oracle returns `None` rather than the
payload, because it discards payloads shorter than 20 bytes. -/
theorem c5_counterexample :
    (∀ t, toyPrimsSmall.decompress (toyC ++ t) = .ok toySmallP) ∧
    (∀ n, n < toyC.length → toyPrimsSmall.decompress (toyC.take n) = .error ()) ∧
    (∀ t, toyPrimsSmall.unusedAfter (toyC ++ t) = .ok t) ∧
    toyC.take 2 = [120, 156] ∧ toyC.length ≤ 1048576 ∧
    10 ≤ (toyC ++ toyTrailing).length ∧
    ZlibStreamParser.try_decompressE toyPrimsSmall (toyC ++ toyTrailing) 0 1048576 =
      .ok none := by
  exact ⟨toyPrimsSmall_dec, toyPrimsSmall_pre, toyPrimsSmall_un, rfl, by decide, by decide, rfl⟩

/-- Claim C5 as amended: the round trip holds provided the decompressed
payload is at least 20 bytes long and the whole buffer is at least 10
bytes: the oracle then returns the payload bit-identically together with
the exact number of source bytes the decompressor consumed. -/
theorem c5_amended (pz : ZlibStreamParser.PyPrims) (C P trailing : Buf)
    (hhdr : C.take 2 = [120,1] ∨ C.take 2 = [120,156] ∨ C.take 2 = [120,218])
    (hC2 : 2 ≤ C.length) (hCmax : C.length ≤ 1048576)
    (hlen : 10 ≤ (C ++ trailing).length) (hP : 20 ≤ P.length)
    (hdec : ∀ t, pz.decompress (C ++ t) = .ok P)
    (hpre : ∀ n, n < C.length → pz.decompress (C.take n) = .error ())
    (hun : ∀ t, pz.unusedAfter (C ++ t) = .ok t) :
    ∃ r, ZlibStreamParser.try_decompressE pz (C ++ trailing) 0 1048576 = .ok (some r) ∧
      r.decompressed_data = P ∧ r.compressed_size = C.length :=
  ⟨ZlibStreamParser.expectedResult pz C P,
   (ZlibStreamParser.try_decompress_roundtrip pz C P trailing hhdr hC2 hCmax hlen hP
     hdec hpre hun).1, rfl, rfl⟩

/-- Witness for the amended claim C5 with the 24-byte payload model. -/
theorem c5_amended_witness :
    (toyC.take 2 = [120, 156]) ∧ 2 ≤ toyC.length ∧ toyC.length ≤ 1048576 ∧
    10 ≤ (toyC ++ toyTrailing).length ∧ 20 ≤ toyP.length ∧
    (∀ t, toyPrimsOK.decompress (toyC ++ t) = .ok toyP) ∧
    (∀ n, n < toyC.length → toyPrimsOK.decompress (toyC.take n) = .error ()) ∧
    (∀ t, toyPrimsOK.unusedAfter (toyC ++ t) = .ok t) ∧
    ∃ r, ZlibStreamParser.try_decompressE toyPrimsOK (toyC ++ toyTrailing) 0 1048576 =
        .ok (some r) ∧ r.decompressed_data = toyP ∧ r.compressed_size = toyC.length :=
  ⟨rfl, by decide, by decide, by decide, by decide,
   toyPrimsOK_dec, toyPrimsOK_pre, toyPrimsOK_un,
   c5_amended toyPrimsOK toyC toyP toyTrailing (Or.inr (Or.inl rfl)) (by decide) (by decide)
     (by decide) (by decide) toyPrimsOK_dec toyPrimsOK_pre toyPrimsOK_un⟩

/-- Claim C6: the three named oracles are total on every buffer and
offset — all bounded reads are clamped slices (`pySlice`), every
in-body indexing or unpacking error is provably unreachable or caught,
and every malformed input maps to the `None` verdict, so no exception
reaches the caller (for the stream oracle, under every decompressor
behaviour). -/
theorem c6_oracle_totality (data : Buf) (offset max_size max_compressed_size : Nat)
    (pz : ZlibStreamParser.PyPrims) :
    (∃ r, XMAParser.parse_headerE data offset = .ok r) ∧
    (∃ r, ScriptParser.parse_scriptE data offset max_size = .ok r) ∧
    (∃ r, ZlibStreamParser.try_decompressE pz data offset max_compressed_size = .ok r) :=
  ⟨xma_parse_headerE_ok data offset, parse_scriptE_ok data offset max_size,
   try_decompressE_ok pz data offset max_compressed_size⟩

/-- Claim C7, counterexample: a scan whose capture opens and reads
perfectly still aborts with an exception when persisting the manifest
fails, so capture open/read failures are not the only aborting
condition. -/
theorem c7_counterexample :
    EffCarve.envManifestFail.mkdirOk = true ∧
    EffCarve.envManifestFail.openOk = true ∧
    (∀ k, EffCarve.envManifestFail.readChunk k = .ok ()) ∧
    EffCarve.carve_dumpE EffCarve.envManifestFail = .error () :=
  ⟨rfl, rfl, fun _ => rfl, rfl⟩

/-- Claim C7 as amended: per-candidate I/O failures are caught inside
`_extract_file` and the scan attempts every remaining candidate; the
scan aborts exactly on capture open/read failures *or* on output
directory creation / manifest persistence failures. -/
theorem c7_amended (env : EffCarve.EffEnv)
    (hmk : env.mkdirOk = true) (hop : env.openOk = true)
    (hrd : ∀ k, k < env.nChunks → env.readChunk k = .ok ())
    (hsv : env.saveManifestOk = true)
    (hio : ∀ k, k < env.nChunks → ∀ job ∈ env.jobs k, ∀ p ∈ job, p.2 ≠ .error .other) :
    EffCarve.carve_dumpE env = .ok (EffCarve.allIds env) := by
  unfold EffCarve.carve_dumpE
  rw [EffCarve.chunkLoop_ok env (List.range env.nChunks) []
    (fun k hk => hrd k (List.mem_range.mp hk))]
  simp only [hmk, hop, hsv, not_true_eq_false, if_false]
  rw [if_pos trivial]
  unfold EffCarve.allIds
  congr 1
  apply List.foldl_ext
  intro acc k hk
  congr 1
  exact EffCarve.process_chunkE_complete (env.jobs k)
    (fun job hj i e hm => hio k (List.mem_range.mp hk) job hj (i, e) hm)

theorem envIOFail_no_other : ∀ k, k < EffCarve.envIOFail.nChunks →
    ∀ job ∈ EffCarve.envIOFail.jobs k, ∀ p ∈ job,
    p.2 ≠ Except.error EffCarve.PyErr.other := by
  intro k hk job hj p hp
  have hje : job = [(0, Except.error EffCarve.PyErr.io), (1, Except.ok ())] := by
    simpa [EffCarve.envIOFail] using hj
  subst hje
  rcases List.mem_cons.mp hp with hp1 | hp2
  · subst hp1
    exact fun hc => EffCarve.PyErr.noConfusion (Except.error.inj hc)
  · rcases List.mem_cons.mp hp2 with hp3 | hp4
    · subst hp3
      exact fun hc => Except.noConfusion hc
    · exact absurd hp4 (List.not_mem_nil p)

/-- Witness for the amended claim C7: one chunk, one signature, first
candidate fails with an I/O error; the scan still attempts candidate 1
and completes. -/
theorem c7_amended_witness :
    EffCarve.envIOFail.mkdirOk = true ∧ EffCarve.envIOFail.openOk = true ∧
    (∀ k, k < EffCarve.envIOFail.nChunks → EffCarve.envIOFail.readChunk k = .ok ()) ∧
    EffCarve.envIOFail.saveManifestOk = true ∧
    EffCarve.carve_dumpE EffCarve.envIOFail = .ok [0, 1] :=
  ⟨rfl, rfl, fun _ _ => rfl, rfl,
   c7_amended EffCarve.envIOFail rfl rfl (fun _ _ => rfl) rfl envIOFail_no_other⟩

/-- Claim C8: a logical raster-texture header with plausible dimensions
parses from both its little-endian and its big-endian encoding with the
same recovered width and height, flagged `little` / not Xbox 360 for the
former and `big` / Xbox 360 for the latter. -/
theorem c8_endianness_roundtrip (w h pitch mip a b c d : Nat)
    (hw1 : 0 < w) (hw2 : w ≤ 16384) (hh1 : 0 < h) (hh2 : h ≤ 16384) :
    ∃ le be,
      DDSParser.parse_header (DDSParser.mkHeaderLE w h pitch mip a b c d) 0 = some le ∧
      DDSParser.parse_header (DDSParser.mkHeaderBE w h pitch mip a b c d) 0 = some be ∧
      le.width = w ∧ be.width = w ∧ le.height = h ∧ be.height = h ∧
      le.endianness = "little" ∧ le.is_xbox360 = false ∧
      be.endianness = "big" ∧ be.is_xbox360 = true := by
  obtain ⟨le, h1, h2, h3, h4, h5⟩ :=
    DDSParser.parse_mkHeaderLE w h pitch mip a b c d hw1 hw2 hh1 hh2
  obtain ⟨be, g1, g2, g3, g4, g5⟩ :=
    DDSParser.parse_mkHeaderBE w h pitch mip a b c d hw1 hw2 hh1 hh2
  exact ⟨le, be, h1, g1, h2, g2, h3, g3, h4, h5, g4, g5⟩

/-- Witness for claim C8 at width = height = 256 with a DXT1 FourCC. -/
theorem c8_witness :
    ((0 : Nat) < 256 ∧ (256 : Nat) ≤ 16384) ∧
    ∃ le be,
      DDSParser.parse_header (DDSParser.mkHeaderLE 256 256 0 0 68 88 84 49) 0 = some le ∧
      DDSParser.parse_header (DDSParser.mkHeaderBE 256 256 0 0 68 88 84 49) 0 = some be ∧
      le.width = 256 ∧ be.width = 256 ∧ le.height = 256 ∧ be.height = 256 ∧
      le.endianness = "little" ∧ le.is_xbox360 = false ∧
      be.endianness = "big" ∧ be.is_xbox360 = true :=
  ⟨⟨by decide, by decide⟩,
   c8_endianness_roundtrip 256 256 0 0 68 88 84 49 (by decide) (by decide) (by decide)
     (by decide)⟩

/-- Claim C9: scanning
`"scn MyScript\nshort count\nEnd\nscn NextScript\n..."` yields exactly
one script record, named MyScript and flagged complete; its extent (28
bytes) ends just before the newline that precedes the second `"scn "`
header at offset 29 (the preceding newline sits at offset 28, and the
trimmed extent keeps bytes 0..27). -/
theorem c9_script_scenario :
    scanScript1.manifest =
      [⟨"script_scn", 0, 28, 28, "script_scn/MyScript.txt", false, ""⟩] ∧
    ScriptParser.parse_script captureScript 0 100000 = some ⟨"MyScript", 28, true⟩ ∧
    bytesFind captureScript [115, 99, 110, 32] 1 = some 29 ∧
    rfindByte captureScript 10 29 = some 28 := by
  decide

/-- Claim C10: every record outside the decompressed-stream path has
`size_in_dump = size_output` — `_extract_file` records the parsed size
in both fields, even when the capture ends before `offset + size`. -/
theorem c10_uncompressed_sizes_equal (cfg : Config) (capture : Buf)
    (file_types : Option (List String)) (st0 : CarverState) (r : CarveEntry)
    (hr : r ∈ (carve_dump cfg capture file_types st0).manifest)
    (hc : r.is_compressed = false) :
    r.size_in_dump = r.size_output := by
  obtain ⟨e, he, hft, hprop⟩ := carve_dump_mem hr
  exact (hprop hc).1

/-- Witness for claim C10 at the concrete texture scan. -/
theorem c10_witness :
    ((⟨"dds", 256, 32896, 32896, "dds/dds_0001_off_00000100.dds", false, ""⟩ : CarveEntry) ∈
      scanDDS1.manifest) ∧
    (⟨"dds", 256, 32896, 32896, "dds/dds_0001_off_00000100.dds", false, ""⟩ :
      CarveEntry).size_in_dump =
    (⟨"dds", 256, 32896, 32896, "dds/dds_0001_off_00000100.dds", false, ""⟩ :
      CarveEntry).size_output :=
  ⟨by decide,
   c10_uncompressed_sizes_equal defaultConfig captureDDS (some ["dds"]) initState _
     (by decide) rfl⟩

end ClaimTheorems
